import Mathlib

/-!
Verification development for the summarygram Telegram bot.

Shallow embedding of the message-routing policy (`src/controller/core.ts`),
the Redis-backed history storage contract (`src/utils/data.ts`) and the
speech-to-text wrappers (`src/utils/stt.ts`).  JavaScript strings are
modelled as `List Char`; the external Redis store is modelled as an
association list of keys to (value list, optional TTL); the external LLM
backend (`generate` from the llm-proxy) is an oracle parameter returning
`Except`; JavaScript truthiness of strings and numbers is modelled
explicitly (empty string and zero are falsy).
-/

/-- JavaScript strings, modelled as character lists. -/
abbrev Str := List Char

/-- `leadsWith pat s` holds when `pat` is a leading segment of `s`.
Models JavaScript `s.startsWith(pat)` and the per-position test used by
`String.prototype.split` / `String.prototype.replace` scanning. -/
def leadsWith : Str → Str → Bool
  | [], _ => true
  | _ :: _, [] => false
  | p :: ps, c :: cs => p == c && leadsWith ps cs

/-- JavaScript `s.split(',')` (single-character separator), used for
`process.env.WHITELISTED_CHATS?.split(',')`. -/
def splitComma : Str → List Str
  | [] => [[]]
  | c :: rest =>
    let r := splitComma rest
    if c = ',' then [] :: r
    else (c :: r.headI) :: r.tail

/-- First occurrence of `pat` in `s`: `some (before, after)` with the match
removed, scanning left to right, or `none` when `pat` does not occur.
This is the scan underlying JavaScript `split` and first-occurrence
`replace` with a string pattern. -/
def findSplit (pat : Str) : Str → Option (Str × Str)
  | [] => none
  | c :: rest =>
    if leadsWith pat (c :: rest) then some ([], (c :: rest).drop pat.length)
    else
      match findSplit pat rest with
      | none => none
      | some (pre, post) => some (c :: pre, post)

/-- JavaScript `s.replace(pat, rep)` with a string pattern: replaces only
the first occurrence, returns `s` unchanged when there is none. -/
def jsReplaceFirst (pat rep s : Str) : Str :=
  match findSplit pat s with
  | none => s
  | some (pre, post) => pre ++ rep ++ post

/-- The ad hoc field separator `'###'` used by `updateHistory` /
`getHistory` in `src/utils/data.ts` to pack `username` and `message` into
one stored string. -/
def sep : Str := ['#', '#', '#']

/-- Segment of `s` before the first occurrence of `sep` (all of `s` when
there is none): element `[0]` of JavaScript `s.split('###')`. -/
def upToSep : Str → Str
  | [] => []
  | c :: rest => if leadsWith sep (c :: rest) then [] else c :: upToSep rest

/-- Remainder of `s` after the first occurrence of `sep`, or `none` when
there is none.  `upToSep` of this remainder is element `[1]` of
JavaScript `s.split('###')`. -/
def fromSep : Str → Option Str
  | [] => none
  | c :: rest => if leadsWith sep (c :: rest) then some (rest.drop 2) else fromSep rest

/-- One decoded history entry, as produced by `getHistory`
(`{ username, message }` in `src/utils/data.ts`). -/
structure Entry where
  username : Str
  message : Str
deriving DecidableEq

/-- Decoding of one stored string, `src/utils/data.ts` `getHistory`:
`const [username, message] = msg.split('###')`.  `username` is the text
before the first `'###'`; `message` is the text between the first and the
second occurrence (JavaScript destructuring reads only `parts[0]` and
`parts[1]`).  A stored string with no `'###'` would give JavaScript
`undefined` for `message`; every string written by `updateHistory`
contains `'###'`, so that case is modelled as `[]`. -/
def parseStored (s : Str) : Entry :=
  { username := upToSep s
  , message :=
      match fromSep s with
      | none => []
      | some r => upToSep r }

/-! ## The Redis store model

The store is an association list of keys to `(items, ttl)`.  `rPush`
appends to the value list (creating the key, with no expiry, when
absent); `expire` sets the TTL of an existing key and is a no-op on a
missing key; a key's presence in the list models "not yet expired". -/

/-- One stored key with its list value and (optional) time to live in
seconds. -/
structure StoreEntry where
  key : Str
  items : List Str
  ttl : Option Nat
deriving DecidableEq

/-- The Redis store state. -/
structure Store where
  entries : List StoreEntry
deriving DecidableEq

/-- Redis `RPUSH key val` on the association list. -/
def rPushList : List StoreEntry → Str → Str → List StoreEntry
  | [], k, v => [⟨k, [v], none⟩]
  | e :: rest, k, v =>
    if e.key = k then ⟨e.key, e.items ++ [v], e.ttl⟩ :: rest
    else e :: rPushList rest k v

/-- Redis `EXPIRE key seconds` on the association list (no-op when the
key is absent). -/
def expireList : List StoreEntry → Str → Nat → List StoreEntry
  | [], _, _ => []
  | e :: rest, k, t =>
    if e.key = k then ⟨e.key, e.items, some t⟩ :: rest
    else e :: expireList rest k t

/-- Key lookup on the association list. -/
def lookupList : List StoreEntry → Str → Option StoreEntry
  | [], _ => none
  | e :: rest, k => if e.key = k then some e else lookupList rest k

/-- The two Redis commands issued by this repository's storage layer. -/
inductive RedisCmd
  | rPush (key val : Str)
  | expire (key : Str) (seconds : Nat)

/-- Effect of one Redis command on the store. -/
def applyCmd (s : Store) : RedisCmd → Store
  | .rPush k v => ⟨rPushList s.entries k v⟩
  | .expire k t => ⟨expireList s.entries k t⟩

/-- Effect of one `MULTI ... EXEC` transaction: the listed commands
applied in order as a single atomic state transition (no other operation
is interleaved). -/
def applyTxn (s : Store) (cmds : List RedisCmd) : Store :=
  cmds.foldl applyCmd s

/-- Redis `LRANGE key 0 -1` (the whole list; `[]` when the key is
absent), as used by `getHistory`. -/
def lRange (s : Store) (k : Str) : List Str :=
  match lookupList s.entries k with
  | some e => e.items
  | none => []

/-- All keys currently present (not yet expired) in the store, the domain
scanned by Redis `KEYS`. -/
def storeKeys (s : Store) : List Str :=
  s.entries.map (fun e => e.key)

/-! ## `src/utils/data.ts` -/

/-- `KEY_PREFIX_CHAT = 'chat:'`. -/
def keyPrefixChat : Str := "chat:".data

/-- `generateKeyChat(chatId)`: `KEY_PREFIX_CHAT + chatId`. -/
def generateKeyChat (chatId : Str) : Str := keyPrefixChat ++ chatId

/-- `updateHistory(storage, key, username, message)`: one
`MULTI().rPush(key, username + '###' + message).expire(key, 60*60*8).exec()`
transaction — the append and the 8-hour expiry refresh are issued as a
single atomic unit. -/
def updateHistory (s : Store) (key username message : Str) : Store :=
  applyTxn s [.rPush key (username ++ sep ++ message), .expire key (60 * 60 * 8)]

/-- `getHistory(storage, key)`: `lRange(key, 0, -1)` decoded entrywise by
`msg.split('###')` destructuring. -/
def getHistory (s : Store) (key : Str) : List Entry :=
  (lRange s key).map parseStored

/-- `getActiveChats(storage)`: the keys matching the glob `'chat:*'`
(i.e. keys led by the prefix), each with the first occurrence of
`'chat:'` removed by `key.replace(KEY_PREFIX_CHAT, '')`. -/
def getActiveChats (s : Store) : List Str :=
  ((storeKeys s).filter (fun k => leadsWith keyPrefixChat k)).map
    (fun k => jsReplaceFirst keyPrefixChat [] k)

/-! ## The summarization client (`generate` from `@derogab/llm-proxy`)

`generate` takes an ordered list of role-tagged messages and returns one
role-tagged message, or throws (`No available LLM found.` when no backend
is configured, or a transport/API error).  It is external to this
repository and is modelled as an oracle parameter. -/

/-- One role-tagged message, `{ role, content }`. -/
structure RoleMsg where
  role : Str
  content : Str
deriving DecidableEq

/-- Failure modes of the external `generate` call. -/
inductive GenError
  | noProviderConfigured
  | providerError
deriving DecidableEq

/-- The external summarization backend as an oracle. -/
abbrev Gen := List RoleMsg → Except GenError RoleMsg

/-- The fixed system preamble of the conversation-summary request built by
`generate_summary` in `src/controller/core.ts`. -/
def summarySystemMsgs : List RoleMsg :=
  [ ⟨"system".data, "You are an helpful assistant.".data⟩
  , ⟨"system".data, "Your only task is to summarize a lot of messages written by different authors.".data⟩
  , ⟨"system".data, "You will receive all messages of a chat and you will have to return a summary of the all conversation.".data⟩
  , ⟨"system".data, "Use the same language used by the other people. Reply in simple text WITHOUT any special formatting characters (DO NOT use ** or _ please).".data⟩ ]

/-- The full conversation-summary request of `generate_summary`: the
system preamble followed by one user message per stored history entry,
formatted `'@' + x.username + ': ' + x.message`, in stored order. -/
def summaryRequest (s : Store) (key : Str) : List RoleMsg :=
  summarySystemMsgs ++
    (getHistory s key).map
      (fun x => ⟨"user".data, "@".data ++ x.username ++ ": ".data ++ x.message⟩)

/-- `generate_summary(storage, key)`: fetch the history, call `generate`
on the conversation-summary request, return `m.content`. -/
def generate_summary (gen : Gen) (s : Store) (key : Str) : Except GenError Str :=
  (gen (summaryRequest s key)).map (fun m => m.content)

/-- The fixed system preamble of the single-message (auto-digest)
request built inline in `onMessageReceived`. -/
def tldrSystemMsgs : List RoleMsg :=
  [ ⟨"system".data, "You are an helpful assistant.".data⟩
  , ⟨"system".data, "Your only task is to summarize a text.".data⟩
  , ⟨"system".data, "You will receive the text and you will have to return only a very short and concise summary of that text.".data⟩
  , ⟨"system".data, "Use the same language used in the text. Reply in simple text WITHOUT any special formatting characters (DO NOT use ** or _ please).".data⟩
  , ⟨"system".data, "Use smart spacing so that the text will be easy to read.".data⟩ ]

/-- The full auto-digest request: the system preamble followed by one
user message `'Text:\n\n' + text`. -/
def tldrRequest (text : Str) : List RoleMsg :=
  tldrSystemMsgs ++ [⟨"user".data, "Text:\n\n".data ++ text⟩]

/-- Marker prepended to the auto-digest reply: `'TL;DR\n\n'`. -/
def tldrMarker : Str := "TL;DR\n\n".data

/-! ## The message router (`src/controller/core.ts`, `onMessageReceived`)

The inbound Telegram message.  `ctx.update.message` may itself be
`undefined`, so the router input is an `Option TMessage`.  Optional
chains through sub-objects (`message?.chat?.id`, `message?.from?.id`,
`message?.from?.username`, `message?.document?.file_name`) are each
collapsed to one optional field. -/

/-- The fields of `ctx.update.message` read by the router. -/
structure TMessage where
  text : Option Str
  caption : Option Str
  documentFileName : Option Str
  chatId : Option Int
  fromId : Option Int
  fromUsername : Option Str
  messageId : Nat
deriving DecidableEq

/-- JavaScript truthiness of an optional string: `undefined` and the
empty string are falsy. -/
def jsTruthyStr (o : Option Str) : Bool :=
  match o with
  | none => false
  | some s => !s.isEmpty

/-- `message?.chat?.id ? ''+message?.chat?.id : undefined`: the chat id
stringified, `undefined` when the message or the id is missing or the id
is `0` (falsy). -/
def chatIdOf (msg : Option TMessage) : Option Str :=
  match msg.bind (fun m => m.chatId) with
  | some i => if i = 0 then none else some (toString i).data
  | none => none

/-- `message?.from?.id ? ''+message?.from?.id : undefined`. -/
def fromIdOf (msg : Option TMessage) : Option Str :=
  match msg.bind (fun m => m.fromId) with
  | some i => if i = 0 then none else some (toString i).data
  | none => none

/-- `message?.from?.username ? ''+message?.from?.username : undefined`. -/
def fromUsernameOf (msg : Option TMessage) : Option Str :=
  match msg.bind (fun m => m.fromUsername) with
  | some s => if s.isEmpty then none else some s
  | none => none

/-- `const from = fromUsername || fromId` (both operands are `undefined`
or non-empty strings, so `||` is the option fallback). -/
def fromOf (msg : Option TMessage) : Option Str :=
  match fromUsernameOf msg with
  | some s => some s
  | none => fromIdOf msg

/-- Body-text resolution on the three optional surfaces, exactly the
code's truthiness cascade: `text` when truthy, else `caption` when
truthy, else `document.file_name` when truthy, else no body. -/
def resolveBody (text caption fileName : Option Str) : Option Str :=
  if jsTruthyStr text then text
  else if jsTruthyStr caption then caption
  else if jsTruthyStr fileName then fileName
  else none

/-- The resolved body text of an inbound message. -/
def resolvedBodyOf (msg : Option TMessage) : Option Str :=
  resolveBody (msg.bind (fun m => m.text)) (msg.bind (fun m => m.caption))
    (msg.bind (fun m => m.documentFileName))

/-- `reply_to_message_id: message?.message_id`. -/
def messageIdOf (msg : Option TMessage) : Option Nat :=
  msg.map (fun m => m.messageId)

/-- The configuration surface read by the router:
`process.env.WHITELISTED_CHATS` (raw string) and
`process.env.MSG_LENGTH_LIMIT`.  The `Number(...)` decimal parse of the
latter is abstracted to the parsed value. -/
structure Env where
  whitelistedChats : Option Str
  msgLengthLimit : Option Nat
deriving DecidableEq

/-- `Number(process.env.MSG_LENGTH_LIMIT ?? 1000)`. -/
def limitOf (env : Env) : Nat :=
  env.msgLengthLimit.getD 1000

/-- The whitelist guard,
`process.env.WHITELISTED_CHATS && !process.env.WHITELISTED_CHATS?.split(',').includes(chatId)`:
`true` exactly when the env var is truthy (set and non-empty) and the
chat id is not among its comma-separated items. -/
def whitelistBlocks (env : Env) (chatId : Str) : Bool :=
  match env.whitelistedChats with
  | none => false
  | some w => if w.isEmpty then false else !((splitComma w).contains chatId)

/-- The command token: `text?.startsWith('/summary')`. -/
def cmdSummary : Str := "/summary".data

/-- One outbound reply: its text and the optional threaded
`reply_to_message_id`. -/
structure Reply where
  text : Str
  replyTo : Option Nat
deriving DecidableEq

/-- How one routed event terminated: normal return, one of the two
thrown router errors, or a propagated `generate` failure. -/
inductive RouterOutcome
  | ok
  | errMissingChat
  | errMissingAuthor
  | errProvider (e : GenError)
deriving DecidableEq

/-- Observable result of routing one event: the final store, the
summarization requests issued, the replies sent, the chats signalled
with a best-effort typing indicator, and the outcome. -/
structure RouterResult where
  store : Store
  genCalls : List (List RoleMsg)
  replies : List Reply
  typing : List Str
  outcome : RouterOutcome
deriving DecidableEq

/-- `onMessageReceived(storage, ctx)` from `src/controller/core.ts`:
guards (missing chat → throw, whitelist → silent return, missing author
→ throw, no body → silent return), then either the `/summary` command
branch (typing indicator, `generate_summary`, reply; no storage write)
or the storage branch (`updateHistory`, then the auto-digest request and
`'TL;DR\n\n'`-prefixed threaded reply when the body exceeds the length
limit).  A `generate` failure propagates; replies after it are not
sent.  Outbound sends themselves are modelled as succeeding; the typing
indicator's own failure is swallowed by the code (`catch(() => {})`) and
is modelled as a recorded best-effort attempt. -/
def onMessageReceived (env : Env) (gen : Gen) (store : Store) (msg : Option TMessage) :
    RouterResult :=
  match chatIdOf msg with
  | none => ⟨store, [], [], [], .errMissingChat⟩
  | some chatId =>
    if whitelistBlocks env chatId then ⟨store, [], [], [], .ok⟩
    else
      match fromOf msg with
      | none => ⟨store, [], [], [], .errMissingAuthor⟩
      | some frm =>
        match resolvedBodyOf msg with
        | none => ⟨store, [], [], [], .ok⟩
        | some text =>
          if leadsWith cmdSummary text then
            match gen (summaryRequest store (generateKeyChat chatId)) with
            | .error e =>
              ⟨store, [summaryRequest store (generateKeyChat chatId)], [], [chatId],
                .errProvider e⟩
            | .ok m =>
              ⟨store, [summaryRequest store (generateKeyChat chatId)],
                [⟨m.content, none⟩], [chatId], .ok⟩
          else
            if limitOf env < text.length then
              match gen (tldrRequest text) with
              | .error e =>
                ⟨updateHistory store (generateKeyChat chatId) frm text,
                  [tldrRequest text], [], [], .errProvider e⟩
              | .ok m =>
                ⟨updateHistory store (generateKeyChat chatId) frm text,
                  [tldrRequest text], [⟨tldrMarker ++ m.content, messageIdOf msg⟩], [],
                  .ok⟩
            else
              ⟨updateHistory store (generateKeyChat chatId) frm text, [], [], [], .ok⟩

/-! ## The nightly digest loop (`onCronJob`) -/

/-- Observable result of one cron run: the unsolicited sends
`(chatId, summary)` in order, the summarization requests issued, and the
first propagated failure (which aborts the loop), if any.  Outbound
`bot.api.sendMessage` is modelled as succeeding. -/
structure CronResult where
  sends : List (Str × Str)
  genCalls : List (List RoleMsg)
  failure : Option GenError
deriving DecidableEq

/-- The per-chat loop body of `onCronJob`: skip a chat with empty
history; otherwise call `generate_summary` and send the result.  There
is no per-chat exception handling in the source, so a `generate` failure
terminates the whole loop. -/
def cronLoop (gen : Gen) (store : Store) : List Str → CronResult
  | [] => ⟨[], [], none⟩
  | chatId :: rest =>
    if (getHistory store (generateKeyChat chatId)).length = 0 then
      cronLoop gen store rest
    else
      match gen (summaryRequest store (generateKeyChat chatId)) with
      | .error e => ⟨[], [summaryRequest store (generateKeyChat chatId)], some e⟩
      | .ok m =>
        let r := cronLoop gen store rest
        ⟨(chatId, m.content) :: r.sends,
          summaryRequest store (generateKeyChat chatId) :: r.genCalls, r.failure⟩

/-- `onCronJob(storage, bot)`: iterate the active chats. -/
def onCronJob (gen : Gen) (store : Store) : CronResult :=
  cronLoop gen store (getActiveChats store)

/-! ## The transcription wrappers (`src/utils/stt.ts`) -/

/-- Outcome of the external `sttProxy.transcribe` /
`sttProxy.transcribeBuffer` call: a result object `{ text }`, or a
thrown error. -/
inductive SttOutcome
  | ok (text : Str)
  | threw
deriving DecidableEq

/-- `transcribeAudio(audioFilePath, options)`: `result.text || null`
inside `try`, `null` on `catch`. -/
def transcribeAudio (audioFilePath : Str) (backend : SttOutcome) : Option Str :=
  match backend with
  | .threw => none
  | .ok t => if t.isEmpty then none else some t

/-- `transcribeBuffer(audioBuffer, fileExtension, options)`: same shape
over the buffer-based backend call (the extension is unused by the
code). -/
def transcribeBuffer (audioBuffer : List Nat) (fileExtension : Str)
    (backend : SttOutcome) : Option Str :=
  match backend with
  | .threw => none
  | .ok t => if t.isEmpty then none else some t

/-! ## Auxiliary definitions used by the theorems -/

/-- `n` sequential `updateHistory` appends for one chat key. -/
def appendAll (s : Store) (key : Str) (ps : List (Str × Str)) : Store :=
  ps.foldl (fun acc p => updateHistory acc key p.1 p.2) s

/-- The author string cannot shift or contain a separator match: no
occurrence of `'###'` starts inside `u` even when `u` is followed by the
separator (equivalently, `u ++ '##'` contains no `'###'`). -/
def authorSepFree (u : Str) : Prop := fromSep (u ++ ['#', '#']) = none

/-- The content string contains no `'###'`. -/
def contentSepFree (m : Str) : Prop := fromSep m = none

instance (u : Str) : Decidable (authorSepFree u) := by
  unfold authorSepFree; infer_instance

instance (m : Str) : Decidable (contentSepFree m) := by
  unfold contentSepFree; infer_instance

/-! ## String lemmas -/

theorem leadsWith_self_append (pat t : Str) : leadsWith pat (pat ++ t) = true := by
  induction pat with
  | nil => simp [leadsWith]
  | cons p ps ih => simp [leadsWith, ih]

theorem leadsWith_append_of_le (pat s t : Str) (h : pat.length ≤ s.length) :
    leadsWith pat (s ++ t) = leadsWith pat s := by
  induction pat generalizing s with
  | nil => simp [leadsWith]
  | cons p ps ih =>
    cases s with
    | nil => simp at h
    | cons c cs =>
      simp only [List.cons_append, leadsWith, List.append_eq]
      rw [ih cs (by simpa using Nat.le_of_succ_le_succ h)]

theorem leadsWith_iff_exists (pat s : Str) :
    leadsWith pat s = true ↔ ∃ t, s = pat ++ t := by
  induction pat generalizing s with
  | nil => simp [leadsWith]
  | cons p ps ih =>
    cases s with
    | nil => simp [leadsWith]
    | cons c cs =>
      simp only [leadsWith, Bool.and_eq_true, beq_iff_eq, ih, List.cons_append]
      constructor
      · rintro ⟨rfl, t, rfl⟩; exact ⟨t, rfl⟩
      · rintro ⟨t, h⟩
        cases h
        exact ⟨rfl, t, rfl⟩

/-- The separator test on `c :: v ++ [sep chars...]` does not depend on
what follows the first two separator characters. -/
theorem leadsWith_sep_boundary (c : Char) (v w : Str) :
    leadsWith sep (c :: (v ++ (sep ++ w))) =
      leadsWith sep (c :: (v ++ ['#', '#'])) := by
  have hshape : c :: (v ++ (sep ++ w)) = (c :: (v ++ ['#', '#'])) ++ ('#' :: w) := by
    simp [sep, List.append_assoc]
  rw [hshape, leadsWith_append_of_le]
  simp [sep]

theorem fromSep_encode (u m : Str) (hu : authorSepFree u) :
    fromSep (u ++ (sep ++ m)) = some m := by
  induction u with
  | nil => simp [sep, fromSep, leadsWith]
  | cons c u' ih =>
    unfold authorSepFree at hu
    rw [List.cons_append] at hu
    cases hlw : leadsWith sep (c :: (u' ++ ['#', '#'])) with
    | true => simp [fromSep, hlw] at hu
    | false =>
      simp only [fromSep, hlw, if_neg, Bool.false_eq_true, if_false] at hu
      rw [List.cons_append]
      unfold fromSep
      rw [leadsWith_sep_boundary, hlw]
      simp only [Bool.false_eq_true, if_false]
      exact ih hu

theorem upToSep_encode (u m : Str) (hu : authorSepFree u) :
    upToSep (u ++ (sep ++ m)) = u := by
  induction u with
  | nil => simp [sep, upToSep, leadsWith]
  | cons c u' ih =>
    unfold authorSepFree at hu
    rw [List.cons_append] at hu
    cases hlw : leadsWith sep (c :: (u' ++ ['#', '#'])) with
    | true => simp [fromSep, hlw] at hu
    | false =>
      simp only [fromSep, hlw, Bool.false_eq_true, if_false] at hu
      rw [List.cons_append]
      unfold upToSep
      rw [leadsWith_sep_boundary, hlw]
      simp only [Bool.false_eq_true, if_false]
      rw [ih hu]

theorem upToSep_of_sepFree (m : Str) (hm : contentSepFree m) : upToSep m = m := by
  induction m with
  | nil => simp [upToSep]
  | cons c rest ih =>
    unfold contentSepFree at hm
    cases hlw : leadsWith sep (c :: rest) with
    | true => simp [fromSep, hlw] at hm
    | false =>
      simp only [fromSep, hlw, Bool.false_eq_true, if_false] at hm
      unfold upToSep
      rw [hlw]
      simp only [Bool.false_eq_true, if_false]
      rw [ih hm]

/-- Round trip of the ad hoc `'###'` encoding, for pairs the encoding can
represent unambiguously. -/
theorem parseStored_encode (u m : Str) (hu : authorSepFree u) (hm : contentSepFree m) :
    parseStored (u ++ sep ++ m) = ⟨u, m⟩ := by
  unfold parseStored
  rw [List.append_assoc, fromSep_encode u m hu, upToSep_encode u m hu]
  simp [upToSep_of_sepFree m hm]

/-! ## Store lemmas -/

theorem lookup_rPush_expire (l : List StoreEntry) (k v : Str) (t : Nat) :
    lookupList (expireList (rPushList l k v) k t) k =
      some ⟨k, (match lookupList l k with | some e => e.items | none => []) ++ [v],
        some t⟩ := by
  induction l with
  | nil => simp [rPushList, expireList, lookupList]
  | cons e rest ih =>
    by_cases hk : e.key = k
    · simp [rPushList, expireList, lookupList, hk]
    · simp only [rPushList, expireList, lookupList, hk, if_neg, if_false, ih]

theorem lookup_updateHistory (s : Store) (k u m : Str) :
    lookupList (updateHistory s k u m).entries k =
      some ⟨k, lRange s k ++ [u ++ sep ++ m], some (60 * 60 * 8)⟩ := by
  unfold updateHistory applyTxn
  simp only [List.foldl, applyCmd]
  rw [lookup_rPush_expire]
  rfl

theorem lRange_eq_items (s : Store) (k : Str) (e : StoreEntry)
    (h : lookupList s.entries k = some e) : lRange s k = e.items := by
  unfold lRange
  rw [h]

theorem lRange_updateHistory (s : Store) (k u m : Str) :
    lRange (updateHistory s k u m) k = lRange s k ++ [u ++ sep ++ m] := by
  rw [lRange_eq_items _ _ _ (lookup_updateHistory s k u m)]

theorem lRange_appendAll (s : Store) (key : Str) (ps : List (Str × Str)) :
    lRange (appendAll s key ps) key =
      lRange s key ++ ps.map (fun p => p.1 ++ sep ++ p.2) := by
  induction ps generalizing s with
  | nil => simp [appendAll]
  | cons p ps' ih =>
    show lRange (appendAll (updateHistory s key p.1 p.2) key ps') key = _
    rw [ih, lRange_updateHistory, List.map_cons, List.append_assoc]
    rfl

theorem findSplit_self_append (pat rest : Str) (h : pat ≠ []) :
    findSplit pat (pat ++ rest) = some ([], rest) := by
  cases pat with
  | nil => exact absurd rfl h
  | cons p ps =>
    rw [List.cons_append]
    unfold findSplit
    have hlw : leadsWith (p :: ps) (p :: (ps ++ rest)) = true := by
      rw [← List.cons_append]; exact leadsWith_self_append _ _
    rw [hlw]
    simp only [if_true]
    rw [← List.cons_append, List.drop_left]

theorem jsReplaceFirst_key (c : Str) :
    jsReplaceFirst keyPrefixChat [] (keyPrefixChat ++ c) = c := by
  unfold jsReplaceFirst
  rw [findSplit_self_append _ _ (by decide)]
  simp

/-! ## Shared concrete objects for witnesses and counterexamples -/

/-- A store with two active chats (and one non-chat key), each with one
stored message. -/
def demoStore : Store :=
  ⟨[⟨"chat:1".data, ["a###hello".data], some 28800⟩,
    ⟨"business-connection:9".data, ["tok".data], none⟩,
    ⟨"chat:2".data, ["b###hi".data], some 28800⟩]⟩

/-- A backend oracle that always succeeds with the fixed text `SUM`. -/
def okGen : Gen := fun _ => .ok ⟨"assistant".data, "SUM".data⟩

/-- A backend oracle with no provider configured: every call fails. -/
def failGen : Gen := fun _ => .error .noProviderConfigured

/-- A backend oracle that fails exactly on the conversation-summary
request of chat `1` of `demoStore` and succeeds on everything else. -/
def cexGen : Gen := fun req =>
  if req = summaryRequest demoStore (generateKeyChat ("1".data)) then .error .providerError
  else .ok ⟨"assistant".data, "ok".data⟩

/-- A `/summary` command message in chat 1 from `alice`. -/
def msgSummary : TMessage :=
  ⟨some ("/summary".data), none, none, some 1, some 7, some ("alice".data), 42⟩

/-- A short plain message in chat 1 from `alice`. -/
def msgShort : TMessage :=
  ⟨some ("hi".data), none, none, some 1, some 7, some ("alice".data), 42⟩

/-- A six-character plain message in chat 1 from `alice` (long relative
to `envSmall`'s limit of 3). -/
def msgLong : TMessage :=
  ⟨some ("abcdef".data), none, none, some 1, some 7, some ("alice".data), 42⟩

/-- A message with no text, caption or document surface. -/
def msgNoBody : TMessage :=
  ⟨none, none, none, some 1, some 7, some ("alice".data), 5⟩

/-- Configuration with no whitelist and the default length limit. -/
def envDefault : Env := ⟨none, none⟩

/-- Configuration with no whitelist and length limit 3. -/
def envSmall : Env := ⟨none, some 3⟩

/-- Configuration whitelisting only chat `1`. -/
def envWhitelist1 : Env := ⟨some ("1".data), none⟩

/-- A message in chat 2 (not on `envWhitelist1`'s list) with no
resolvable sender identity. -/
def msgNoAuthorChat2 : TMessage :=
  ⟨some ("hi".data), none, none, some 2, none, none, 5⟩

/-- A message whose `text` field is present but empty, with a caption. -/
def msgEmptyText : TMessage :=
  ⟨some [], some ("cap".data), none, some 1, some 7, some ("alice".data), 5⟩

/-- The JavaScript-truthy value of an optional string: the string when
present and non-empty, otherwise nothing. -/
def truthyVal (o : Option Str) : Option Str :=
  match o with
  | some s => if s.isEmpty then none else some s
  | none => none

/-- The body-resolution priority as the (amended) spec states it: the
first present and non-empty field among text, caption and the attached
document's file name.  Stated independently of the code's cascade, to
be compared with `resolveBody`. -/
def resolveBodySpec (text caption fileName : Option Str) : Option Str :=
  match truthyVal text with
  | some s => some s
  | none =>
    match truthyVal caption with
    | some s => some s
    | none => truthyVal fileName

/-! ## Claim theorems -/

/-- C1: routing an event whose resolved body text begins with
`/summary` leaves the store unchanged (no history append), issues
exactly one summarization call, whose request is the system preamble
followed by the chat's full ordered history, and — when the backend
returns — sends the returned content back as the one reply.  No
hypothesis restricts the stored history, so the summarization call is
made even when it is empty (see the witness, which runs on an empty
store). -/
theorem C1_summary_command (env : Env) (gen : Gen) (store : Store) (msg : Option TMessage)
    (chatId frm text : Str)
    (hchat : chatIdOf msg = some chatId)
    (hwl : whitelistBlocks env chatId = false)
    (hfrom : fromOf msg = some frm)
    (hbody : resolvedBodyOf msg = some text)
    (hcmd : leadsWith cmdSummary text = true) :
    (onMessageReceived env gen store msg).store = store ∧
    (onMessageReceived env gen store msg).genCalls =
      [summaryRequest store (generateKeyChat chatId)] ∧
    summaryRequest store (generateKeyChat chatId) =
      summarySystemMsgs ++
        (getHistory store (generateKeyChat chatId)).map
          (fun x => ⟨"user".data, "@".data ++ x.username ++ ": ".data ++ x.message⟩) ∧
    (∀ m, gen (summaryRequest store (generateKeyChat chatId)) = .ok m →
      (onMessageReceived env gen store msg).replies = [⟨m.content, none⟩]) := by
  rcases hg : gen (summaryRequest store (generateKeyChat chatId)) with e | m <;>
    refine ⟨?_, ?_, rfl, ?_⟩ <;>
    simp [onMessageReceived, hchat, hwl, hfrom, hbody, hcmd, hg]

/-- C1 witness: concrete run on an *empty* store — the summarization
call is still made (over the bare system preamble) and the backend's
text is sent back. -/
theorem C1_summary_command_witness :
    (getHistory (⟨[]⟩ : Store) (generateKeyChat ("1".data)) = [] ∧
      chatIdOf (some msgSummary) = some ("1".data)) ∧
    ((onMessageReceived envDefault okGen ⟨[]⟩ (some msgSummary)).store = ⟨[]⟩ ∧
      (onMessageReceived envDefault okGen ⟨[]⟩ (some msgSummary)).genCalls =
        [summaryRequest ⟨[]⟩ (generateKeyChat ("1".data))] ∧
      summaryRequest ⟨[]⟩ (generateKeyChat ("1".data)) =
        summarySystemMsgs ++
          (getHistory ⟨[]⟩ (generateKeyChat ("1".data))).map
            (fun x => ⟨"user".data, "@".data ++ x.username ++ ": ".data ++ x.message⟩) ∧
      (∀ m, okGen (summaryRequest ⟨[]⟩ (generateKeyChat ("1".data))) = .ok m →
        (onMessageReceived envDefault okGen ⟨[]⟩ (some msgSummary)).replies =
          [⟨m.content, none⟩])) :=
  ⟨⟨by decide, by decide⟩,
    C1_summary_command envDefault okGen ⟨[]⟩ (some msgSummary) ("1".data) ("alice".data)
      ("/summary".data) (by decide) (by decide) (by decide) (by decide) (by decide)⟩

/-- C2 counterexample: the claim asserts the round trip also when a
content string contains the stored-string field separator `'###'`.  On
the code, appending `("a", "x###y")` and reading back yields
`("a", "x")`: `getHistory`'s `split('###')` destructuring truncates the
content at its first embedded separator. -/
theorem C2_counterexample :
    getHistory (appendAll ⟨[]⟩ ("chat:1".data) [("a".data, "x###y".data)]) ("chat:1".data) =
      [⟨"a".data, "x".data⟩] ∧
    (⟨"a".data, "x".data⟩ : Entry) ≠ ⟨"a".data, "x###y".data⟩ := by decide

/-- C2 (amended): appending `n` `(author, content)` pairs to a fresh
chat key and reading back returns exactly those `n` entries, in append
order, with authors and contents unchanged — provided each pair is one
the `'###'` encoding represents unambiguously: the content contains no
`'###'`, and no `'###'` match can start inside the author (no `'###'`
in `author ++ '##'`, which also excludes authors ending in `'#'`). -/
theorem C2_history_roundtrip (s : Store) (key : Str) (ps : List (Str × Str))
    (hfresh : lRange s key = [])
    (hps : ∀ p ∈ ps, authorSepFree p.1 ∧ contentSepFree p.2) :
    getHistory (appendAll s key ps) key = ps.map (fun p => ⟨p.1, p.2⟩) := by
  unfold getHistory
  rw [lRange_appendAll, hfresh, List.nil_append, List.map_map]
  induction ps with
  | nil => rfl
  | cons p ps' ih =>
    simp only [List.map_cons, Function.comp_apply]
    rw [parseStored_encode p.1 p.2 (hps p (List.mem_cons_self p ps')).1
      (hps p (List.mem_cons_self p ps')).2]
    rw [ih (fun q hq => hps q (List.mem_cons_of_mem p hq))]

/-- C2 witness: two separator-free pairs appended to a fresh key read
back verbatim and in order. -/
theorem C2_history_roundtrip_witness :
    (lRange (⟨[]⟩ : Store) ("chat:1".data) = [] ∧
      ∀ p ∈ [(("a".data : Str), ("hello".data : Str)), ("b7".data, "wo rld".data)],
        authorSepFree p.1 ∧ contentSepFree p.2) ∧
    getHistory
        (appendAll ⟨[]⟩ ("chat:1".data) [("a".data, "hello".data), ("b7".data, "wo rld".data)])
        ("chat:1".data) =
      [⟨"a".data, "hello".data⟩, ⟨"b7".data, "wo rld".data⟩] :=
  ⟨⟨by decide, by decide⟩, C2_history_roundtrip ⟨[]⟩ ("chat:1".data)
    [("a".data, "hello".data), ("b7".data, "wo rld".data)] (by decide) (by decide)⟩

/-- C3 counterexample: with active chats `1` and `2` (both with
non-empty history) and a backend that fails exactly on chat `1`'s
request, the nightly loop issues one summarization call, sends nothing,
and aborts — chat `2`, which comes after the failing chat, is neither
summarized nor sent, contradicting the claim. -/
theorem C3_counterexample :
    getHistory demoStore (generateKeyChat ("2".data)) ≠ [] ∧
    getActiveChats demoStore = ["1".data, "2".data] ∧
    onCronJob cexGen demoStore =
      ⟨[], [summaryRequest demoStore (generateKeyChat ("1".data))], some .providerError⟩ := by
  decide

/-- C3 (amended): the nightly digest loop is sequential with no
per-chat fault isolation.  A chat with empty history is skipped; a
successfully summarized chat is sent and the loop continues; but when
summarization for a chat fails, the error propagates immediately — the
chats after it get no summarization call and no send. -/
theorem C3_cron_sequential_abort :
    (∀ (gen : Gen) (store : Store) (c : Str) (rest : List Str) (e : GenError),
      (getHistory store (generateKeyChat c)).length ≠ 0 →
      gen (summaryRequest store (generateKeyChat c)) = .error e →
      cronLoop gen store (c :: rest) =
        ⟨[], [summaryRequest store (generateKeyChat c)], some e⟩) ∧
    (∀ (gen : Gen) (store : Store) (c : Str) (rest : List Str) (m : RoleMsg),
      (getHistory store (generateKeyChat c)).length ≠ 0 →
      gen (summaryRequest store (generateKeyChat c)) = .ok m →
      cronLoop gen store (c :: rest) =
        ⟨(c, m.content) :: (cronLoop gen store rest).sends,
          summaryRequest store (generateKeyChat c) :: (cronLoop gen store rest).genCalls,
          (cronLoop gen store rest).failure⟩) ∧
    (∀ (gen : Gen) (store : Store) (c : Str) (rest : List Str),
      (getHistory store (generateKeyChat c)).length = 0 →
      cronLoop gen store (c :: rest) = cronLoop gen store rest) := by
  refine ⟨?_, ?_, ?_⟩
  · intro gen store c rest e hh hg
    simp [cronLoop, hh, hg]
  · intro gen store c rest m hh hg
    simp [cronLoop, hh, hg]
  · intro gen store c rest hh
    simp [cronLoop, hh]

/-- C3 witness: the abort step evaluated on the concrete failing run of
the counterexample. -/
theorem C3_cron_sequential_abort_witness :
    cronLoop cexGen demoStore ("1".data :: ["2".data]) =
      ⟨[], [summaryRequest demoStore (generateKeyChat ("1".data))], some .providerError⟩ :=
  C3_cron_sequential_abort.1 cexGen demoStore ("1".data) ["2".data] .providerError
    (by decide) (by rfl)

/-- C4 counterexample: with a whitelist configured (`"1"`) and an event
from chat `2` with no resolvable sender identity, the router silently
drops the event instead of raising the missing-author error — the
author check is not independent of the whitelist state. -/
theorem C4_counterexample :
    fromOf (some msgNoAuthorChat2) = none ∧
    chatIdOf (some msgNoAuthorChat2) = some ("2".data) ∧
    whitelistBlocks envWhitelist1 ("2".data) = true ∧
    onMessageReceived envWhitelist1 okGen ⟨[]⟩ (some msgNoAuthorChat2) =
      ⟨⟨[]⟩, [], [], [], .ok⟩ := by decide

/-- C4 (amended): an unresolvable chat identifier raises the
missing-chat-context error regardless of the whitelist configuration
and of the sender; an unresolvable sender identity raises the
missing-author error only when the whitelist check passes (no whitelist
configured, or the chat is on it) — when a configured whitelist
excludes the chat, the event is silently dropped before the author
check.  Neither error performs a storage append, a summarization call
or a reply. -/
theorem C4_error_checks :
    (∀ (env : Env) (gen : Gen) (store : Store) (msg : Option TMessage),
      chatIdOf msg = none →
      onMessageReceived env gen store msg = ⟨store, [], [], [], .errMissingChat⟩) ∧
    (∀ (env : Env) (gen : Gen) (store : Store) (msg : Option TMessage) (chatId : Str),
      chatIdOf msg = some chatId →
      whitelistBlocks env chatId = false →
      fromOf msg = none →
      onMessageReceived env gen store msg = ⟨store, [], [], [], .errMissingAuthor⟩) := by
  constructor
  · intro env gen store msg hchat
    simp [onMessageReceived, hchat]
  · intro env gen store msg chatId hchat hwl hfrom
    simp [onMessageReceived, hchat, hwl, hfrom]

/-- C4 witness: the missing-chat error raised with a whitelist
configured, and the missing-author error raised with none. -/
theorem C4_error_checks_witness :
    (chatIdOf none = none ∧
      onMessageReceived envWhitelist1 okGen ⟨[]⟩ none = ⟨⟨[]⟩, [], [], [], .errMissingChat⟩) ∧
    onMessageReceived envDefault okGen ⟨[]⟩ (some msgNoAuthorChat2) =
      ⟨⟨[]⟩, [], [], [], .errMissingAuthor⟩ :=
  ⟨⟨by decide, C4_error_checks.1 envWhitelist1 okGen ⟨[]⟩ none (by decide)⟩,
    C4_error_checks.2 envDefault okGen ⟨[]⟩ (some msgNoAuthorChat2) ("2".data)
      (by decide) (by decide) (by decide)⟩

/-- C5: a non-command event whose resolved body has length at most the
configured threshold causes exactly one history append — and nothing
else; one whose length exceeds the threshold causes exactly one append,
exactly one summarization call on the single-message digest request,
and — when the backend returns — one reply prefixed `TL;DR\n\n` and
threaded to the original message id.  The threshold defaults to 1000
when unconfigured. -/
theorem C5_length_threshold_routing (env : Env) (gen : Gen) (store : Store)
    (msg : Option TMessage) (chatId frm text : Str)
    (hchat : chatIdOf msg = some chatId)
    (hwl : whitelistBlocks env chatId = false)
    (hfrom : fromOf msg = some frm)
    (hbody : resolvedBodyOf msg = some text)
    (hcmd : leadsWith cmdSummary text = false) :
    (text.length ≤ limitOf env →
      onMessageReceived env gen store msg =
        ⟨updateHistory store (generateKeyChat chatId) frm text, [], [], [], .ok⟩) ∧
    (limitOf env < text.length →
      (onMessageReceived env gen store msg).store =
        updateHistory store (generateKeyChat chatId) frm text ∧
      (onMessageReceived env gen store msg).genCalls = [tldrRequest text] ∧
      (∀ m, gen (tldrRequest text) = .ok m →
        (onMessageReceived env gen store msg).replies =
          [⟨tldrMarker ++ m.content, messageIdOf msg⟩])) ∧
    limitOf ⟨env.whitelistedChats, none⟩ = 1000 := by
  refine ⟨?_, ?_, rfl⟩
  · intro hle
    have hnlt : ¬ limitOf env < text.length := Nat.not_lt.mpr hle
    simp [onMessageReceived, hchat, hwl, hfrom, hbody, hcmd, hnlt]
  · intro hgt
    rcases hg : gen (tldrRequest text) with e | m <;>
      refine ⟨?_, ?_, ?_⟩ <;>
      simp [onMessageReceived, hchat, hwl, hfrom, hbody, hcmd, hgt, hg]

/-- C5 witness: with limit 3, the two-character message only appends;
the six-character message appends, calls the digest request once, and
replies `TL;DR\n\n...` threaded to message id 42. -/
theorem C5_length_threshold_routing_witness :
    (onMessageReceived envSmall okGen demoStore (some msgShort) =
      ⟨updateHistory demoStore (generateKeyChat ("1".data)) ("alice".data) ("hi".data),
        [], [], [], .ok⟩) ∧
    ((onMessageReceived envSmall okGen demoStore (some msgLong)).store =
      updateHistory demoStore (generateKeyChat ("1".data)) ("alice".data) ("abcdef".data) ∧
      (onMessageReceived envSmall okGen demoStore (some msgLong)).genCalls =
        [tldrRequest ("abcdef".data)] ∧
      (∀ m, okGen (tldrRequest ("abcdef".data)) = .ok m →
        (onMessageReceived envSmall okGen demoStore (some msgLong)).replies =
          [⟨tldrMarker ++ m.content, messageIdOf (some msgLong)⟩])) :=
  ⟨(C5_length_threshold_routing envSmall okGen demoStore (some msgShort) ("1".data)
      ("alice".data) ("hi".data) (by decide) (by decide) (by decide) (by decide)
      (by decide)).1 (by decide),
    (C5_length_threshold_routing envSmall okGen demoStore (some msgLong) ("1".data)
      ("alice".data) ("abcdef".data) (by decide) (by decide) (by decide) (by decide)
      (by decide)).2.1 (by decide)⟩

/-- C6: every `updateHistory` call is one `MULTI [RPUSH; EXPIRE] EXEC`
transaction (the append and the expiry are issued atomically as a single
state transition, not as separate get/modify/put steps), and after it
the chat key holds the old items plus the new encoded entry with its
TTL set to the full `60 * 60 * 8`-second (8-hour) window — whatever
items and whatever remaining TTL the key had before: the expiry is
sliding, refreshed on every append. -/
theorem C6_sliding_ttl_refresh :
    ∀ (s : Store) (key username message : Str),
      updateHistory s key username message =
        applyTxn s [.rPush key (username ++ sep ++ message), .expire key (60 * 60 * 8)] ∧
      lookupList (updateHistory s key username message).entries key =
        some ⟨key, lRange s key ++ [username ++ sep ++ message], some (60 * 60 * 8)⟩ := by
  intro s key u m
  exact ⟨rfl, lookup_updateHistory s key u m⟩

/-- C7: the chat-key scheme.  `generateKeyChat c` is `"chat:" + c`; the
mapping is injective; stripping the prefix (the code's
`key.replace('chat:', '')`, which replaces the first occurrence)
recovers `c`; and `getActiveChats` enumerates exactly the identifiers
whose key currently exists in the store, prefix stripped. -/
theorem C7_chat_key_scheme :
    (∀ c : Str, generateKeyChat c = "chat:".data ++ c) ∧
    (∀ c c' : Str, generateKeyChat c = generateKeyChat c' → c = c') ∧
    (∀ c : Str, jsReplaceFirst keyPrefixChat [] (generateKeyChat c) = c) ∧
    (∀ (s : Store) (c : Str), c ∈ getActiveChats s ↔ generateKeyChat c ∈ storeKeys s) := by
  refine ⟨fun c => rfl, ?_, fun c => jsReplaceFirst_key c, ?_⟩
  · intro c c' h
    exact List.append_cancel_left h
  · intro s c
    unfold getActiveChats
    simp only [List.mem_map, List.mem_filter]
    constructor
    · rintro ⟨k, ⟨hk, hlw⟩, rfl⟩
      obtain ⟨t, rfl⟩ := (leadsWith_iff_exists keyPrefixChat k).1 hlw
      rw [jsReplaceFirst_key t]
      exact hk
    · intro hk
      refine ⟨generateKeyChat c, ⟨hk, ?_⟩, jsReplaceFirst_key c⟩
      exact leadsWith_self_append keyPrefixChat c

/-- C7 witness: on the concrete demo store, the active-chat enumeration
contains exactly the ids whose `chat:`-keys are present. -/
theorem C7_chat_key_scheme_witness :
    (generateKeyChat ("2".data) ∈ storeKeys demoStore) ∧
    ("2".data ∈ getActiveChats demoStore) :=
  ⟨by decide, (C7_chat_key_scheme.2.2.2 demoStore ("2".data)).mpr (by decide)⟩

/-- C8: on the auto-digest branch the history append completes before
the summarization call, and a provider failure of any kind (including
no provider configured) leaves the completed append in place: the
router's final store is exactly the store after `updateHistory`, so the
stored history after the failure equals the stored history immediately
after the append.  The failure propagates (no reply is sent). -/
theorem C8_append_survives_provider_failure (env : Env) (gen : Gen) (store : Store)
    (msg : Option TMessage) (chatId frm text : Str) (e : GenError)
    (hchat : chatIdOf msg = some chatId)
    (hwl : whitelistBlocks env chatId = false)
    (hfrom : fromOf msg = some frm)
    (hbody : resolvedBodyOf msg = some text)
    (hcmd : leadsWith cmdSummary text = false)
    (hgt : limitOf env < text.length)
    (hfail : gen (tldrRequest text) = .error e) :
    onMessageReceived env gen store msg =
      ⟨updateHistory store (generateKeyChat chatId) frm text, [tldrRequest text], [], [],
        .errProvider e⟩ ∧
    getHistory (onMessageReceived env gen store msg).store (generateKeyChat chatId) =
      getHistory (updateHistory store (generateKeyChat chatId) frm text)
        (generateKeyChat chatId) := by
  have hmain : onMessageReceived env gen store msg =
      ⟨updateHistory store (generateKeyChat chatId) frm text, [tldrRequest text], [], [],
        .errProvider e⟩ := by
    simp [onMessageReceived, hchat, hwl, hfrom, hbody, hcmd, hgt, hfail]
  exact ⟨hmain, by rw [hmain]⟩

/-- C8 witness: a no-provider failure on the long message leaves the
append visible in the final history. -/
theorem C8_append_survives_provider_failure_witness :
    onMessageReceived envSmall failGen demoStore (some msgLong) =
      ⟨updateHistory demoStore (generateKeyChat ("1".data)) ("alice".data) ("abcdef".data),
        [tldrRequest ("abcdef".data)], [], [], .errProvider .noProviderConfigured⟩ :=
  (C8_append_survives_provider_failure envSmall failGen demoStore (some msgLong)
    ("1".data) ("alice".data) ("abcdef".data) .noProviderConfigured (by decide) (by decide)
    (by decide) (by decide) (by decide) (by decide) (by rfl)).1

/-- C9 counterexample: a message whose `text` field is present but
empty resolves to its caption, not to the text — the code's truthiness
test treats a present-but-empty field as absent, so the claim's
"text field if present" priority is violated. -/
theorem C9_counterexample :
    (msgEmptyText.text).isSome = true ∧
    resolvedBodyOf (some msgEmptyText) ≠ msgEmptyText.text ∧
    resolvedBodyOf (some msgEmptyText) = some ("cap".data) := by decide

/-- C9 (amended): the body text is resolved in priority order over the
*present and non-empty* (JavaScript-truthy) fields — text, else
caption, else the attached document's file name; and when all three are
absent or empty, a routable event (chat resolvable, whitelist passed,
sender resolvable) is silently dropped: no error, no reply, no
summarization call and no storage append. -/
theorem C9_body_resolution :
    (∀ text caption fileName : Option Str,
      resolveBody text caption fileName = resolveBodySpec text caption fileName) ∧
    (∀ (env : Env) (gen : Gen) (store : Store) (msg : Option TMessage) (chatId frm : Str),
      chatIdOf msg = some chatId →
      whitelistBlocks env chatId = false →
      fromOf msg = some frm →
      resolvedBodyOf msg = none →
      onMessageReceived env gen store msg = ⟨store, [], [], [], .ok⟩) := by
  constructor
  · intro t c f
    cases t <;> cases c <;> cases f <;>
      simp [resolveBody, resolveBodySpec, truthyVal, jsTruthyStr] <;>
      split_ifs <;> simp_all
  · intro env gen store msg chatId frm hchat hwl hfrom hbody
    simp [onMessageReceived, hchat, hwl, hfrom, hbody]

/-- C9 witness: a routable event with no textual surface is silently
dropped. -/
theorem C9_body_resolution_witness :
    (resolvedBodyOf (some msgNoBody) = none) ∧
    onMessageReceived envDefault okGen demoStore (some msgNoBody) =
      ⟨demoStore, [], [], [], .ok⟩ :=
  ⟨by decide, C9_body_resolution.2 envDefault okGen demoStore (some msgNoBody)
    ("1".data) ("alice".data) (by decide) (by decide) (by decide) (by decide)⟩

/-- C10: the transcription wrappers are total at the public interface:
for every backend outcome they return the backend's text, or `null` —
`null` exactly when the backend call throws or yields an empty text —
and a thrown backend error is absorbed, never propagated (both
functions are total functions into `Option`).  The two wrappers agree
on every outcome. -/
theorem C10_transcription_total :
    ∀ (audioFilePath fileExtension : Str) (audioBuffer : List Nat) (b : SttOutcome),
      transcribeAudio audioFilePath b = transcribeBuffer audioBuffer fileExtension b ∧
      (transcribeAudio audioFilePath b = none ↔ b = .threw ∨ b = .ok []) ∧
      (∀ t : Str, t ≠ [] → transcribeAudio audioFilePath (.ok t) = some t) := by
  intro path ext buf b
  refine ⟨?_, ?_, ?_⟩
  · cases b <;> rfl
  · cases b with
    | threw => simp [transcribeAudio]
    | ok t =>
      simp only [transcribeAudio]
      constructor
      · intro h
        right
        by_cases ht : t.isEmpty
        · rw [List.isEmpty_iff] at ht
          rw [ht]
        · simp [ht] at h
      · rintro (h | h)
        · exact absurd h (by simp)
        · injection h with h
          simp [h]
  · intro t ht
    simp [transcribeAudio, ht]

/-- C10 witness: concrete outcomes — a successful non-empty
transcription is returned, a thrown call and an empty text give
`null`. -/
theorem C10_transcription_total_witness :
    ("hi".data ≠ ([] : Str) ∧
      transcribeAudio ("a.ogg".data) .threw = none ∧
      transcribeBuffer [1, 2] ("ogg".data) (.ok []) = none) ∧
    transcribeAudio ("a.ogg".data) (.ok ("hi".data)) = some ("hi".data) :=
  ⟨⟨by decide, by decide, by decide⟩,
    (C10_transcription_total ("a.ogg".data) ("ogg".data) [1, 2] (.ok ("hi".data))).2.2
      ("hi".data) (by decide)⟩
